import Mathlib

/-!
Verification of the investing-automation checklist engine.

Shallow embedding of the text-evidence scoring pipeline of the repository:
scoring ladders (`penalties.py`, `revenue_analyzer.py`, `specific_factors.py`),
the NLP heuristics (`nlp_analyzer.py`), the section extractor
(`text_processor.py`), the cache manager (`cache_manager.py`), the SEC filing
fetch (`sec_client.py`) and the aggregation logic (`main.py`, `entrypoints.py`).
Numeric values (Python floats holding percentages and scores) are modelled as
rationals; Python dicts are modelled as association lists.
-/

namespace Investing

/-! ## Generic string helpers (Python `str.lower` and the `in` substring test) -/

/-- Python `str.lower()` on an ASCII string, character by character. -/
def lowerL (s : List Char) : List Char := s.map Char.toLower

/-- Does `p` occur as a prefix of `s`? -/
def prefixL : List Char → List Char → Bool
  | [], _ => true
  | _ :: _, [] => false
  | p :: ps, h :: hs => p == h && prefixL ps hs

/-- Python's substring test `pat in hay` (`containsL hay pat`). -/
def containsL : List Char → List Char → Bool
  | hay, pat =>
    match hay with
    | [] => prefixL pat []
    | _ :: t => prefixL pat hay || containsL t pat

/-! ## `Checklist/utilities/revenue_analyzer.py`: `score_recurring_revenue_by_percentage` -/

/-- Embeds `score_recurring_revenue_by_percentage` (revenue_analyzer.py):
an `if/elif` chain over the percentage. -/
def score_recurring_revenue_by_percentage (percentage : ℚ) : ℤ :=
  if percentage ≥ 80 then 5
  else if percentage ≥ 60 then 4
  else if percentage ≥ 40 then 3
  else if percentage ≥ 20 then 2
  else if percentage ≥ 5 then 1
  else 0

/-- Modelled from the spec's words for the recurring-revenue ladder, with the
bands written as disjoint intervals: `≥80 → 5`, `60 ≤ p < 80 → 4`,
`40 ≤ p < 60 → 3`, `20 ≤ p < 40 → 2`, `5 ≤ p < 20 → 1`, else `0`. -/
def spec_recurring_revenue_ladder (p : ℚ) : ℤ :=
  if 80 ≤ p then 5
  else if 60 ≤ p ∧ p < 80 then 4
  else if 40 ≤ p ∧ p < 60 then 3
  else if 20 ≤ p ∧ p < 40 then 2
  else if 5 ≤ p ∧ p < 20 then 1
  else 0

/-! ## `Checklist/utilities/nlp_analyzer.py`: customer-type classification and
actual-vs-hypothetical tagging -/

/-- The exclusion patterns of `NLPAnalyzer.classify_customer_type`. -/
def exclusion_patterns : List (List Char) :=
  ["geographic", "geographical", "region", "international", "domestic",
   "industry", "sector", "market segment", "product line", "business unit",
   "channel", "distribution", "sales channel", "revenue stream",
   "service line", "division", "subsidiary", "segment"].map String.toList

/-- The single-customer patterns of `NLPAnalyzer.classify_customer_type`. -/
def single_patterns : List (List Char) :=
  ["customer", "client", "account", "largest customer", "major customer",
   "significant customer", "key customer", "primary customer"].map String.toList

/-- The multiple-customer patterns of `NLPAnalyzer.classify_customer_type`. -/
def multiple_patterns : List (List Char) :=
  ["customers", "clients", "accounts", "top customers", "major customers",
   "largest customers", "key customers", "significant customers"].map String.toList

/-- `any(pattern in sentence_lower for pattern in exclusion_patterns)`. -/
def has_exclusion (sentence : List Char) : Bool :=
  exclusion_patterns.any (fun p => containsL (lowerL sentence) p)

/-- `sum(1 for pattern in single_patterns if pattern in sentence_lower)`. -/
def count_single_matches (sentence : List Char) : Nat :=
  (single_patterns.filter (fun p => containsL (lowerL sentence) p)).length

/-- `sum(1 for pattern in multiple_patterns if pattern in sentence_lower)`. -/
def count_multiple_matches (sentence : List Char) : Nat :=
  (multiple_patterns.filter (fun p => containsL (lowerL sentence) p)).length

/-- Embeds `NLPAnalyzer.classify_customer_type` (nlp_analyzer.py):
exclusion check, phrase counting, then the classification chain
(`none` models Python `None`, "should be excluded"). -/
def classify_customer_type (sentence : List Char) (percentage : ℚ) : Option String :=
  if has_exclusion sentence then none
  else
    let single_matches := count_single_matches sentence
    let multiple_matches := count_multiple_matches sentence
    if single_matches > multiple_matches then some "single"
    else if multiple_matches > 0 then
      if percentage ≥ 50 then some "single"
      else if percentage ≥ 20 then some "few"
      else some "multiple"
    else
      if percentage ≥ 50 then some "single"
      else if percentage ≥ 25 then some "few"
      else some "multiple"

/-- The risk/forward-looking cue words of `NLPAnalyzer._is_actual_statement`
(note: the code also includes "possible", beyond the documented list). -/
def risk_patterns : List (List Char) :=
  ["risk", "could", "may", "might", "potential", "possible", "if", "would",
   "forward-looking", "projection", "estimate", "expect", "anticipate",
   "believe", "plan", "intend", "future", "outlook", "guidance"].map String.toList

/-- Embeds `NLPAnalyzer._is_actual_statement` (nlp_analyzer.py). -/
def is_actual_statement (sentence : List Char) : Bool :=
  !(risk_patterns.any (fun p => containsL (lowerL sentence) p))

/-- The forward-looking cue words documented by the spec (18 words). -/
def documented_cue_words : List String :=
  ["risk", "could", "may", "might", "potential", "if", "would",
   "forward-looking", "projection", "estimate", "expect", "anticipate",
   "believe", "plan", "intend", "future", "outlook", "guidance"]

/-! ## `Checklist/penalties.py`: `_score_concentration_enhanced` -/

/-- A customer-concentration finding as consumed by the penalties scorer:
`value` (a percentage), `finding_type` and `confidence`. -/
structure ConcFinding where
  value : ℚ
  finding_type : String
  confidence : ℚ

/-- Embeds `_score_concentration_enhanced` (penalties.py), including the
computed-but-unused `top_two_total` / `top_three_total` aggregates. -/
def score_concentration_enhanced (top_finding : ConcFinding)
    (all_findings : List ConcFinding) : ℤ :=
  let percentage := top_finding.value
  let customer_type := top_finding.finding_type
  let confidence := top_finding.confidence
  let effective_percentage := percentage * confidence
  let top_two_total :=
    if all_findings.length ≥ 2 then
      ((all_findings.take 2).map (fun f => f.value * f.confidence)).sum
    else effective_percentage
  let _top_three_total :=
    if all_findings.length ≥ 3 then
      ((all_findings.take 3).map (fun f => f.value * f.confidence)).sum
    else top_two_total
  if customer_type = "single" ∧ effective_percentage > 50 then -5
  else if customer_type = "few" ∧ effective_percentage > 70 then -5
  else if customer_type = "single" ∧ effective_percentage > 25 then -3
  else if customer_type = "few" ∧ effective_percentage > 50 then -3
  else 0

/-- Modelled from the spec's words for the concentration ladder, with the
moderate-risk bands written as disjoint intervals of the effective
percentage `value × confidence`. -/
def spec_concentration_ladder (f : ConcFinding) : ℤ :=
  let eff := f.value * f.confidence
  if f.finding_type = "single" ∧ 50 < eff then -5
  else if f.finding_type = "few" ∧ 70 < eff then -5
  else if f.finding_type = "single" ∧ 25 < eff ∧ eff ≤ 50 then -3
  else if f.finding_type = "few" ∧ 50 < eff ∧ eff ≤ 70 then -3
  else 0

/-! ## `Checklist/utilities/cache_manager.py`: `get_cached_data` / `save_cache`

The persisted cache file is modelled as an association list from keys to
(timestamp, payload); time is a rational number of days, matching the
`timedelta(days=CACHE_EXPIRY_DAYS)` comparison in the code.  The outcome
records the returned pair, whether the fetch function was invoked, and
whether `save_cache` was called (`saved`), together with the resulting
persisted cache contents. -/

/-- `CACHE_EXPIRY_DAYS` from settings.py. -/
def CACHE_EXPIRY_DAYS : ℚ := 15

/-- Outcome of one `get_cached_data` call. -/
structure GetOutcome (V : Type) where
  data : Option V
  timestamp : Option ℚ
  fetched : Bool
  saved : Bool
  cache : List (String × ℚ × V)
  deriving DecidableEq

/-- `cache_key in cache.get('data', {})` plus the entry read. -/
def cache_lookup {V : Type} (cache : List (String × ℚ × V)) (key : String) :
    Option (ℚ × V) :=
  (cache.find? (fun e => e.1 == key)).map (fun e => e.2)

/-- The fall-through of `get_cached_data` after a miss or an expired entry:
fetch, and on success write the entry back with the current timestamp
(`save_cache`); on a `None` fetch return `(None, None)` with no write. -/
def fetch_and_update {V : Type} (cache : List (String × ℚ × V)) (key : String)
    (now : ℚ) (fetch_result : Option V) : GetOutcome V :=
  match fetch_result with
  | some v =>
      ⟨some v, some now, true, true, (key, now, v) :: cache.filter (fun e => e.1 != key)⟩
  | none => ⟨none, none, true, false, cache⟩

/-- Embeds `get_cached_data` (cache_manager.py): return a stored entry when
`timestamp + timedelta(days=CACHE_EXPIRY_DAYS) > now`, otherwise fetch. -/
def get_cached_data {V : Type} (cache : List (String × ℚ × V)) (key : String)
    (now : ℚ) (fetch_result : Option V) : GetOutcome V :=
  match cache_lookup cache key with
  | some (ts, v) =>
      if ts + CACHE_EXPIRY_DAYS > now then ⟨some v, some ts, false, false, cache⟩
      else fetch_and_update cache key now fetch_result
  | none => fetch_and_update cache key now fetch_result

/-- Is there a fresh (unexpired) entry for `key` at time `now`? -/
def cache_hit_fresh {V : Type} (cache : List (String × ℚ × V)) (key : String)
    (now : ℚ) : Bool :=
  match cache_lookup cache key with
  | some (ts, _) => decide (ts + CACHE_EXPIRY_DAYS > now)
  | none => false

/-! ## `Checklist/utilities/text_processor.py`: `extract_10k_section`

The section-header and boundary regexes are embedded as sequences of
single-character-class atoms with a quantifier (`x`, `x?`, `x*`, `x+`), which
covers every pattern in the code.  `re_search` returns the position of the
leftmost match, as `re.search(...).start()` does. -/

/-- A regex quantifier: exactly one, `?`, `*`, or `+`. -/
inductive RQuant where
  | one
  | opt
  | star
  | plus

/-- One regex atom: a character class with a quantifier. -/
abbrev RAtom := (Char → Bool) × RQuant

/-- A regex as used by the extractor: a sequence of atoms. -/
abbrev RPattern := List RAtom

/-- Does some prefix of `s` match the atom sequence?  Fuelled so it
computes by kernel reduction; the fuel in `matchesAt` dominates every
backtracking path. -/
def matchFuel : Nat → RPattern → List Char → Bool
  | 0, _, _ => false
  | _ + 1, [], _ => true
  | fuel + 1, (p, RQuant.one) :: rest, s =>
    match s with
    | [] => false
    | c :: t => p c && matchFuel fuel rest t
  | fuel + 1, (p, RQuant.opt) :: rest, s =>
    matchFuel fuel rest s ||
      (match s with
       | [] => false
       | c :: t => p c && matchFuel fuel rest t)
  | fuel + 1, (p, RQuant.star) :: rest, s =>
    matchFuel fuel rest s ||
      (match s with
       | [] => false
       | c :: t => p c && matchFuel fuel ((p, RQuant.star) :: rest) t)
  | fuel + 1, (p, RQuant.plus) :: rest, s =>
    match s with
    | [] => false
    | c :: t => p c && matchFuel fuel ((p, RQuant.star) :: rest) t

/-- A match of the pattern starts at the head of `s`. -/
def matchesAt (pat : RPattern) (s : List Char) : Bool :=
  matchFuel ((pat.length + 2) * (s.length + 2)) pat s

/-- Scan left to right for the first match position. -/
def searchAux (pat : RPattern) : List Char → Nat → Option Nat
  | [], i => if matchesAt pat [] then some i else none
  | c :: t, i => if matchesAt pat (c :: t) then some i else searchAux pat t (i + 1)

/-- Python `re.search(pat, s)`, returning `match.start()`. -/
def re_search (pat : RPattern) (s : List Char) : Option Nat := searchAux pat s 0

/-- Python regex `\s` over ASCII. -/
def wsp (c : Char) : Bool :=
  c == ' ' || c == '\t' || c == '\n' || c == '\r' || c == Char.ofNat 11 || c == Char.ofNat 12

/-- A literal string, one atom per character. -/
def lits (s : String) : RPattern :=
  s.toList.map (fun c => ((fun d => d == c), RQuant.one))

/-- `\s+`. -/
def ws1 : RAtom := (wsp, RQuant.plus)

/-- `\s*`. -/
def ws0 : RAtom := (wsp, RQuant.star)

/-- `[\.\-\s]*`. -/
def dotDashWs0 : RAtom := ((fun c => c == '.' || c == '-' || wsp c), RQuant.star)

/-- `['\s]*` (39 is the apostrophe). -/
def aposWs0 : RAtom := ((fun c => c == Char.ofNat 39 || wsp c), RQuant.star)

/-- An optional literal character (`c?`). -/
def optChar (c : Char) : RAtom := ((fun d => d == c), RQuant.opt)

/-- A character range such as `[3-9]` or `[a-c]`. -/
def charRange (lo hi : Char) : Char → Bool := fun c => decide (lo ≤ c) && decide (c ≤ hi)

/-- `item\s+[lo-hi][a-c]?[\.\s]`. -/
def item_digit_pattern (lo hi : Char) : RPattern :=
  lits "item" ++ [ws1, (charRange lo hi, RQuant.one), (charRange 'a' 'c', RQuant.opt),
    ((fun c => c == '.' || wsp c), RQuant.one)]

/-- `item\s+N\s*[\.\-\s]*` followed by a literal tail, the shape shared by most
header regexes. -/
def item_pattern (n : String) (tail : RPattern) : RPattern :=
  lits "item" ++ [ws1] ++ lits n ++ [ws0, dotDashWs0] ++ tail

/-- `management['\s]*s\s+discussion\s+and\s+analysis`. -/
def mgmt_discussion : RPattern :=
  lits "management" ++ [aposWs0] ++ lits "s" ++ [ws1] ++ lits "discussion" ++ [ws1] ++
    lits "and" ++ [ws1] ++ lits "analysis"

/-- `risk\s+factors`. -/
def risk_factors_tail : RPattern := lits "risk" ++ [ws1] ++ lits "factors"

/-- `legal\s+proceedings`. -/
def legal_proceedings_tail : RPattern := lits "legal" ++ [ws1] ++ lits "proceedings"

/-- `mine\s+safety`. -/
def mine_safety_tail : RPattern := lits "mine" ++ [ws1] ++ lits "safety"

/-- The `section_patterns` dict of `extract_10k_section`, keyed by the
lowercased section name. -/
def section_patterns (name_lower : List Char) : List RPattern :=
  if name_lower = "mda".toList then
    [item_pattern "2" mgmt_discussion,
     mgmt_discussion,
     item_pattern "2" (lits "results" ++ [ws1] ++ lits "of" ++ [ws1] ++ lits "operations"),
     lits "md&a"]
  else if name_lower = "risk_factors".toList then
    [item_pattern "1a" risk_factors_tail,
     risk_factors_tail,
     item_pattern "1a" (lits "risk" ++ [optChar 's', ws1] ++ lits "relating" ++ [ws1] ++ lits "to")]
  else if name_lower = "business".toList then
    [item_pattern "1" (lits "business"),
     item_pattern "1" (lits "general"),
     lits "business" ++ [ws1] ++ lits "overview"]
  else if name_lower = "legal".toList then
    [item_pattern "3" legal_proceedings_tail,
     legal_proceedings_tail]
  else []

/-- The `next_section_patterns` dict of `extract_10k_section`, with the code's
default for unknown names. -/
def next_section_patterns (name_lower : List Char) : List RPattern :=
  if name_lower = "mda".toList then
    [item_pattern "3" legal_proceedings_tail,
     item_pattern "4" mine_safety_tail,
     item_digit_pattern '3' '9']
  else if name_lower = "risk_factors".toList then
    [item_pattern "1b" (lits "unresolved"),
     item_pattern "2" [],
     item_digit_pattern '2' '9']
  else if name_lower = "business".toList then
    [item_pattern "1a" risk_factors_tail,
     item_pattern "1b" [],
     item_digit_pattern '2' '9']
  else if name_lower = "legal".toList then
    [item_pattern "4" mine_safety_tail,
     item_digit_pattern '4' '9']
  else [item_digit_pattern '2' '9']

/-- The header/boundary search loop: try the patterns in priority order and
keep the first pattern's match position (`break` on the first match). -/
def find_first_match : List RPattern → List Char → Option Nat
  | [], _ => none
  | p :: rest, text =>
    match re_search p text with
    | some i => some i
    | none => find_first_match rest text

/-- Embeds `extract_10k_section` (text_processor.py), including the
`if not section_start:` truthiness test that also fires when the header
matched at position 0, the 1000-character skip before the boundary search,
and the 150000-character cap. -/
def extract_10k_section (filing_text : List Char) (section_name : String) : List Char :=
  let filing_lower := lowerL filing_text
  let patterns := section_patterns (lowerL section_name.toList)
  if patterns.isEmpty then []
  else
    match find_first_match patterns filing_lower with
    | none => []
    | some section_start =>
      if section_start = 0 then []
      else
        let end_patterns := next_section_patterns (lowerL section_name.toList)
        let section_end :=
          match find_first_match end_patterns (filing_lower.drop (section_start + 1000)) with
          | some j => section_start + 1000 + j
          | none => filing_text.length
        let section_end' := min section_end (section_start + 150000)
        (filing_text.drop section_start).take (section_end' - section_start)

/-! ## `Checklist/specific_factors.py`: `analyze_margin_trends` and
`calculate_pricing_power`

The gross-margin series (the code's `{year: margin}` dict, sorted by year) is
modelled as a list of (year, margin) pairs; margins are rationals.  Python's
`round(x, 2)` is modelled as rounding half-to-even at two decimals. -/

/-- Python `round()` to an integer: round half to even. -/
def pyRoundHalfEven (q : ℚ) : ℤ :=
  let f := ⌊q⌋
  let r := q - (f : ℚ)
  if r < 1 / 2 then f
  else if 1 / 2 < r then f + 1
  else if f % 2 = 0 then f
  else f + 1

/-- Python `round(x, 2)`. -/
def round2 (q : ℚ) : ℚ := (pyRoundHalfEven (q * 100) : ℚ) / 100

/-- `PRICING_POWER_HIGH_MARGIN` (settings.py). -/
def PRICING_POWER_HIGH_MARGIN : ℚ := 70

/-- `PRICING_POWER_MODERATE_MARGIN` (settings.py). -/
def PRICING_POWER_MODERATE_MARGIN : ℚ := 50

/-- `PRICING_POWER_LOW_MARGIN` (settings.py). -/
def PRICING_POWER_LOW_MARGIN : ℚ := 20

/-- `PRICING_POWER_LOW_VOLATILITY` (settings.py). -/
def PRICING_POWER_LOW_VOLATILITY : ℚ := 3

/-- `PRICING_POWER_HIGH_VOLATILITY` (settings.py). -/
def PRICING_POWER_HIGH_VOLATILITY : ℚ := 5

/-- The analysis dict produced by `analyze_margin_trends`. -/
structure TrendAnalysis where
  trend_direction : String
  overall_change : ℚ
  volatility : ℚ
  avg_margin : ℚ
  recent_trend : String
  years_analyzed : ℕ

/-- Embeds `analyze_margin_trends` (specific_factors.py): direction from first
to last margin, volatility as the mean absolute deviation from the hand-rolled
least-squares line (three or more years only), average margin, and the
direction of the last-three-years sub-trend.  Fewer than two data points give
`none` (the code's empty dict). -/
def analyze_margin_trends (margin_data : List (ℤ × ℚ)) : Option TrendAnalysis :=
  if margin_data.length < 2 then none
  else
    let margins := margin_data.map Prod.snd
    let overall_change := margins.getLastD 0 - margins.headD 0
    let trend_direction :=
      if overall_change > 1 then "rising"
      else if overall_change < -1 then "declining"
      else "stable"
    let volatility :=
      if margins.length ≥ 3 then
        let n : ℚ := margins.length
        let sum_x : ℚ := ((List.range margins.length).map (fun i => (i : ℚ))).sum
        let sum_y := margins.sum
        let sum_xy := (margins.enum.map (fun im => (im.1 : ℚ) * im.2)).sum
        let sum_x2 := ((List.range margins.length).map (fun i => (i : ℚ) * (i : ℚ))).sum
        let slope := (n * sum_xy - sum_x * sum_y) / (n * sum_x2 - sum_x * sum_x)
        let intercept := (sum_y - slope * sum_x) / n
        let deviations := margins.enum.map (fun im => |im.2 - (slope * (im.1 : ℚ) + intercept)|)
        round2 (deviations.sum / deviations.length)
      else 0
    let avg_margin := round2 (margins.sum / margins.length)
    let recent_margins :=
      if margins.length ≥ 3 then margins.drop (margins.length - 3) else margins
    let recent_trend :=
      if recent_margins.length ≥ 2 ∧ recent_margins.getLastD 0 > recent_margins.headD 0 then
        "improving"
      else if recent_margins.length ≥ 2 ∧ recent_margins.getLastD 0 < recent_margins.headD 0 then
        "declining"
      else "stable"
    some ⟨trend_direction, round2 overall_change, volatility, avg_margin, recent_trend,
      margins.length⟩

/-- Embeds `calculate_pricing_power` (specific_factors.py) over a given margin
series and TTM margin: trend base score, margin-level bonus, volatility
adjustment, recent-trend adjustment, TTM adjustment, then the final
`max(0, min(score, 5))` clamp; degenerate data returns 0. -/
def calculate_pricing_power (margin_data : List (ℤ × ℚ)) (ttm_margin : Option ℚ) : ℤ :=
  if margin_data.isEmpty then 0
  else
    match analyze_margin_trends margin_data with
    | none => 0
    | some ta =>
      let annual_change_rate : ℚ :=
        if ta.years_analyzed > 1 then ta.overall_change / ((max (ta.years_analyzed - 1) 1 : ℕ) : ℚ)
        else 0
      let score_base : ℤ :=
        if ta.trend_direction = "rising" then 3
        else if ta.trend_direction = "stable" then 1
        else if ta.trend_direction = "declining" then
          if |annual_change_rate| ≤ 2 then 2
          else if |annual_change_rate| ≤ 4 then 1
          else 0
        else 0
      let score_margin := score_base +
        (if ta.avg_margin > 85 then 3
         else if ta.avg_margin > PRICING_POWER_HIGH_MARGIN then 2
         else if ta.avg_margin > PRICING_POWER_MODERATE_MARGIN then 1
         else if ta.avg_margin < PRICING_POWER_LOW_MARGIN then -1
         else 0)
      let score_vol := score_margin +
        (if ta.volatility < PRICING_POWER_LOW_VOLATILITY then 1
         else if ta.volatility > PRICING_POWER_HIGH_VOLATILITY then -1
         else 0)
      let score_recent := score_vol +
        (if ta.recent_trend = "improving" then 1
         else if ta.recent_trend = "declining" then -1
         else 0)
      let ttm_adjustment : ℤ :=
        match ttm_margin with
        | some tm =>
          if margin_data.length > 0 then
            let latest_annual_margin := (margin_data.map Prod.snd).getLastD 0
            let ttm_vs_annual := tm - latest_annual_margin
            if ttm_vs_annual > 1.5 then 1
            else if ttm_vs_annual < -1.5 then -1
            else 0
          else 0
        | none => 0
      let score_final := score_recent + ttm_adjustment
      max 0 (min score_final 5)

/-- A filing that begins directly with its legal-proceedings header. -/
def c4_filing : List Char := "item 3. legal proceedings are pending".toList

/-! ## `Checklist/main.py` `calculate_total_score` / `entrypoints.py`
`_score_one_ticker`: aggregation with the "Gauntlet Score" carve-out

A section result for one ticker is a mapping metric name → score-or-`None`,
modelled as an association list; the per-ticker view of `results_dict` maps
each section name to that result or `None`. -/

/-- The penalties carve-out:
`{k: v for k, v in scores.items() if k != 'Gauntlet Score'}` for the
penalties section, the scores unchanged otherwise. -/
def visible_scores (sec : String) (scores : List (String × Option ℚ)) :
    List (String × Option ℚ) :=
  if sec = "penalties" then scores.filter (fun kv => kv.1 != "Gauntlet Score")
  else scores

/-- One section's subtotal:
`sum(score for score in scores.values() if score is not None)` after the
carve-out. -/
def section_total (sec : String) (scores : List (String × Option ℚ)) : ℚ :=
  ((visible_scores sec scores).filterMap Prod.snd).sum

/-- Embeds the summation loop of `calculate_total_score` (main.py) for one
ticker: sections with no result contribute 0, the rest contribute their
subtotal. -/
def calculate_total_score
    (results : List (String × Option (List (String × Option ℚ)))) : ℚ :=
  (results.map (fun sr =>
    match sr.2 with
    | some scores => section_total sr.1 scores
    | none => 0)).sum

/-! ## `Checklist/utilities/sec_client.py`: `fetch_10k_filing`

The HTTP world is modelled as the statuses and parsed bodies the three
requests of the fetch sequence can observe: the CIK lookup table, the
submissions index, and a status/body per document URL.  Python exceptions
(e.g. out-of-range list indexing on a malformed submissions body) are caught
by the function's `except` clause and modelled as explicit `none` results. -/

/-- One entry of `company_tickers.json`. -/
structure SecCompany where
  ticker : String
  cik_str : ℕ

/-- `submissions_data['filings']['recent']`: the parallel metadata lists. -/
structure RecentFilings where
  form : List String
  accessionNumber : List String
  filingDate : List String
  primaryDocument : List String

/-- The submissions body; `none` models a missing/empty `recent` feed. -/
structure Submissions where
  recent : Option RecentFilings

/-- The observable HTTP world for one `fetch_10k_filing` call. -/
structure SecWorld where
  cik_status : ℕ
  companies : List SecCompany
  submissions_status : ℕ
  submissions : Submissions
  doc_status : String → ℕ
  doc_text : String → String

/-- The returned filing dict. -/
structure Filing where
  text : String
  filing_date : String
  filing_url : String
  form_type : String

/-- `https://www.sec.gov/Archives/edgar/data`. -/
def sec_base_url : String := "https://www.sec.gov/Archives/edgar/data"

/-- The document fetch at the end of `fetch_10k_filing`, including the
alternative-URL (`R1.htm`) retry on a non-200 status. -/
def fetch_document (w : SecWorld) (cik_int : ℕ) (accession_number : String)
    (primary_doc filing_date form_type : String) : Option Filing :=
  let filing_url :=
    sec_base_url ++ "/" ++ toString cik_int ++ "/" ++ accession_number ++ "/" ++ primary_doc
  if w.doc_status filing_url ≠ 200 then
    let alt_url :=
      sec_base_url ++ "/" ++ toString cik_int ++ "/" ++ accession_number ++ "/R1.htm"
    if w.doc_status alt_url ≠ 200 then none
    else some ⟨w.doc_text alt_url, filing_date, alt_url, form_type⟩
  else some ⟨w.doc_text filing_url, filing_date, filing_url, form_type⟩

/-- The form-type selection: the first `10-K` index, else the first `20-F`
index, else nothing. -/
def select_form (form_types : List String) : Option (ℕ × String) :=
  match form_types.findIdx? (fun f => f == "10-K") with
  | some i => some (i, "10-K")
  | none =>
    match form_types.findIdx? (fun f => f == "20-F") with
    | some i => some (i, "20-F")
    | none => none

/-- Processing of the `recent` filings lists: select the filing, read the
parallel lists (an out-of-range read raises in Python and degrades to `None`
via the `except` clause), and fetch the document. -/
def fetch_from_recent (w : SecWorld) (cik_int : ℕ) (rf : RecentFilings) :
    Option Filing :=
  match select_form rf.form with
  | none => none
  | some (latest_index, form_type) =>
    match rf.accessionNumber.get? latest_index, rf.filingDate.get? latest_index,
          rf.primaryDocument.get? latest_index with
    | some acc, some filing_date, some primary_doc =>
        fetch_document w cik_int (String.mk (acc.toList.filter (fun c => c != '-')))
          primary_doc filing_date form_type
    | _, _, _ => none

/-- Embeds `fetch_10k_filing` (sec_client.py) over the modelled HTTP world:
CIK lookup, ticker match, submissions fetch, recent-filings check, form-type
selection, document fetch with retry. -/
def fetch_10k_filing (w : SecWorld) (ticker : String) : Option Filing :=
  if w.cik_status ≠ 200 then none
  else
    match w.companies.find? (fun c => c.ticker.toUpper == ticker.toUpper) with
    | none => none
    | some info =>
      if w.submissions_status ≠ 200 then none
      else
        match w.submissions.recent with
        | none => none
        | some rf => fetch_from_recent w info.cik_str rf

end Investing

namespace Investing

/-- The two concentration if-chains (code order vs. disjoint spec bands) agree
for every customer type and effective percentage. -/
lemma conc_chain_eq (t : String) (eff : ℚ) :
    (if t = "single" ∧ eff > 50 then (-5 : ℤ)
     else if t = "few" ∧ eff > 70 then -5
     else if t = "single" ∧ eff > 25 then -3
     else if t = "few" ∧ eff > 50 then -3
     else 0)
    = (if t = "single" ∧ 50 < eff then -5
       else if t = "few" ∧ 70 < eff then -5
       else if t = "single" ∧ 25 < eff ∧ eff ≤ 50 then -3
       else if t = "few" ∧ 50 < eff ∧ eff ≤ 70 then -3
       else 0) := by
  by_cases hs : t = "single"
  · simp only [hs, (by decide : ("single" : String) ≠ "few"), false_and, if_false,
      eq_self_iff_true, true_and]
    rcases lt_or_le 50 eff with h50 | h50
    · rw [if_pos h50, if_pos h50]
    · rw [if_neg (not_lt.mpr h50), if_neg (not_lt.mpr h50)]
      rcases lt_or_le 25 eff with h25 | h25
      · rw [if_pos h25, if_pos ⟨h25, h50⟩]
      · rw [if_neg (not_lt.mpr h25), if_neg (fun h => absurd h.1 (not_lt.mpr h25))]
  · by_cases hf : t = "few"
    · simp only [hf, (by decide : ("few" : String) ≠ "single"), false_and, if_false,
        eq_self_iff_true, true_and]
      rcases lt_or_le 70 eff with h70 | h70
      · rw [if_pos h70, if_pos h70]
      · rw [if_neg (not_lt.mpr h70), if_neg (not_lt.mpr h70)]
        rcases lt_or_le 50 eff with h50 | h50
        · rw [if_pos h50, if_pos ⟨h50, h70⟩]
        · rw [if_neg (not_lt.mpr h50), if_neg (fun h => absurd h.1 (not_lt.mpr h50))]
    · simp only [hs, hf, false_and, if_false]

/-- C1: Customer concentration scoring ladder — `_score_concentration_enhanced`
applies the ladder over effective percentage = value × confidence
(single >50 → −5, few >70 → −5, single >25 → −3, few >50 → −3, else 0, in that
priority order) regardless of the full findings list, and the top finding
{value: 55, finding_type: "single", confidence: 1.0} scores −5. -/
theorem concentration_ladder_correct :
    (∀ (top : ConcFinding) (fs : List ConcFinding),
      score_concentration_enhanced top fs = spec_concentration_ladder top) ∧
    score_concentration_enhanced ⟨55, "single", 1⟩ [] = -5 := by
  refine ⟨fun top fs => ?_, by norm_num [score_concentration_enhanced]⟩
  exact conc_chain_eq top.finding_type (top.value * top.confidence)

/-- C3 counterexample: the empty sentence has no exclusion-pattern match and
equal (absent) phrase counts, and percentage 22 lies in [20, 50), yet
`classify_customer_type` returns "multiple", not the claimed "few". -/
theorem classify_tiebreak_counterexample :
    has_exclusion [] = false ∧
    count_single_matches [] = count_multiple_matches [] ∧
    (20 : ℚ) ≤ 22 ∧ (22 : ℚ) < 50 ∧
    classify_customer_type [] 22 = some "multiple" ∧
    classify_customer_type [] 22 ≠ some "few" := by
  decide

/-- C3 (amended): when no exclusion pattern matches and the single/multiple
phrase counts are equal, `classify_customer_type` classifies by percentage
magnitude alone, but the middle threshold depends on the branch: ≥50 yields
"single"; the "few" band starts at 20 when the counts are equal and positive
and at 25 when both counts are zero; below that it yields "multiple". -/
theorem classify_tiebreak_amended (s : List Char) (p : ℚ)
    (hex : has_exclusion s = false)
    (heq : count_single_matches s = count_multiple_matches s) :
    classify_customer_type s p = some
      (if p ≥ 50 then "single"
       else if p ≥ (if 0 < count_multiple_matches s then (20 : ℚ) else 25) then "few"
       else "multiple") := by
  simp only [classify_customer_type, hex, Bool.false_eq_true, if_false, heq, lt_irrefl]
  by_cases hm : 0 < count_multiple_matches s
  · simp only [hm, if_pos, if_true]
    split_ifs <;> rfl
  · simp only [hm, if_neg, if_false]
    split_ifs <;> rfl

/-- C3 witness: instantiating the amended theorem at the empty sentence and
percentage 22 (both counts zero, so the 25 threshold applies). -/
theorem classify_tiebreak_amended_witness :
    classify_customer_type [] 22 = some "multiple" := by
  have h := classify_tiebreak_amended [] 22 (by decide) (by decide)
  simpa using h

/-- C5: any documented forward-looking cue word occurring as a substring of the
lowercased sentence forces `_is_actual_statement` to return false; the
realized-fact example is tagged actual and the hypothetical example is not. -/
theorem is_actual_cue_words :
    (∀ (s : List Char), ∀ cue ∈ documented_cue_words,
       containsL (lowerL s) cue.toList = true → is_actual_statement s = false) ∧
    is_actual_statement
      (String.toList "Our largest customer accounted for 60% of revenue in 2023") = true ∧
    is_actual_statement
      (String.toList "A single customer could represent up to 60% of revenue") = false := by
  refine ⟨?_, by decide, by decide⟩
  intro s cue hcue hsub
  have hmem : cue.toList ∈ risk_patterns := by
    have hall : ∀ c ∈ documented_cue_words, c.toList ∈ risk_patterns := by decide
    exact hall cue hcue
  have hany : risk_patterns.any (fun p => containsL (lowerL s) p) = true :=
    List.any_eq_true.mpr ⟨cue.toList, hmem, hsub⟩
  simp [is_actual_statement, hany]

/-- C5 witness: the cue word "risk" occurs in "there is a risk", so the
sentence is tagged non-actual. -/
theorem is_actual_cue_words_witness :
    is_actual_statement (String.toList "there is a risk") = false :=
  is_actual_cue_words.1 _ "risk" (by decide) (by decide)

/-- C2: Recurring revenue scoring ladder — `score_recurring_revenue_by_percentage`
agrees with the spec's band ladder (≥80→5, 60–80→4, 40–60→3, 20–40→2, 5–20→1,
else 0) at every percentage, and in particular 62.0 scores 4. -/
theorem recurring_revenue_ladder_correct :
    (∀ p : ℚ, score_recurring_revenue_by_percentage p = spec_recurring_revenue_ladder p) ∧
    score_recurring_revenue_by_percentage 62 = 4 := by
  constructor
  · intro p
    unfold score_recurring_revenue_by_percentage spec_recurring_revenue_ladder
    rcases le_or_lt 80 p with h80 | h80
    · rw [if_pos (by exact h80), if_pos (by exact h80)]
    rcases le_or_lt 60 p with h60 | h60
    · rw [if_neg (by exact not_le.mpr h80), if_pos (by exact h60),
        if_neg (by exact not_le.mpr h80), if_pos ⟨h60, h80⟩]
    rcases le_or_lt 40 p with h40 | h40
    · rw [if_neg (by exact not_le.mpr h80), if_neg (by exact not_le.mpr h60),
        if_pos (by exact h40), if_neg (by exact not_le.mpr h80),
        if_neg (by exact fun h => absurd h.1 (not_le.mpr h60)), if_pos ⟨h40, h60⟩]
    rcases le_or_lt 20 p with h20 | h20
    · rw [if_neg (by exact not_le.mpr h80), if_neg (by exact not_le.mpr h60),
        if_neg (by exact not_le.mpr h40), if_pos (by exact h20),
        if_neg (by exact not_le.mpr h80),
        if_neg (by exact fun h => absurd h.1 (not_le.mpr h60)),
        if_neg (by exact fun h => absurd h.1 (not_le.mpr h40)), if_pos ⟨h20, h40⟩]
    rcases le_or_lt 5 p with h5 | h5
    · rw [if_neg (by exact not_le.mpr h80), if_neg (by exact not_le.mpr h60),
        if_neg (by exact not_le.mpr h40), if_neg (by exact not_le.mpr h20),
        if_pos (by exact h5), if_neg (by exact not_le.mpr h80),
        if_neg (by exact fun h => absurd h.1 (not_le.mpr h60)),
        if_neg (by exact fun h => absurd h.1 (not_le.mpr h40)),
        if_neg (by exact fun h => absurd h.1 (not_le.mpr h20)), if_pos ⟨h5, h20⟩]
    · rw [if_neg (by exact not_le.mpr h80), if_neg (by exact not_le.mpr h60),
        if_neg (by exact not_le.mpr h40), if_neg (by exact not_le.mpr h20),
        if_neg (by exact not_le.mpr h5), if_neg (by exact not_le.mpr h80),
        if_neg (by exact fun h => absurd h.1 (not_le.mpr h60)),
        if_neg (by exact fun h => absurd h.1 (not_le.mpr h40)),
        if_neg (by exact fun h => absurd h.1 (not_le.mpr h20)),
        if_neg (by exact fun h => absurd h.1 (not_le.mpr h5))]
  · decide

/-- C6: Cache round-trip and TTL expiry — after `get_cached_data` stores a value
for a key at time `t`, a read before `t + CACHE_EXPIRY_DAYS` returns the stored
value and timestamp without invoking the fetch function and without modifying
the cache, and a read at or after `t + CACHE_EXPIRY_DAYS` treats the entry as
absent: it invokes the fetch function and its result is exactly the fetch
result. -/
theorem cache_roundtrip_ttl {V : Type} (cache : List (String × ℚ × V)) (key : String)
    (v : V) (t now : ℚ) (fetch2 : Option V)
    (hsaved : (get_cached_data cache key t (some v)).saved = true) :
    (now < t + CACHE_EXPIRY_DAYS →
      get_cached_data (get_cached_data cache key t (some v)).cache key now fetch2
        = ⟨some v, some t, false, false, (get_cached_data cache key t (some v)).cache⟩) ∧
    (t + CACHE_EXPIRY_DAYS ≤ now →
      (get_cached_data (get_cached_data cache key t (some v)).cache key now fetch2).fetched
          = true ∧
      (get_cached_data (get_cached_data cache key t (some v)).cache key now fetch2).data
          = fetch2) := by
  have hc : (get_cached_data cache key t (some v)).cache
      = (key, t, v) :: cache.filter (fun e => e.1 != key) := by
    unfold get_cached_data at hsaved ⊢
    cases h : cache_lookup cache key with
    | none => simp [h, fetch_and_update]
    | some tsv =>
      obtain ⟨ts, w⟩ := tsv
      simp only [h] at hsaved ⊢
      by_cases hfresh : ts + CACHE_EXPIRY_DAYS > t
      · rw [if_pos hfresh] at hsaved
        exact absurd hsaved (by simp)
      · rw [if_neg hfresh]
        rfl
  have hlook : cache_lookup ((key, t, v) :: cache.filter (fun e => e.1 != key)) key
      = some (t, v) := by
    simp [cache_lookup, List.find?]
  constructor
  · intro hlt
    rw [hc]
    unfold get_cached_data
    rw [hlook]
    simp only [gt_iff_lt, hlt, if_pos]
  · intro hge
    rw [hc]
    unfold get_cached_data
    rw [hlook]
    simp only [gt_iff_lt, not_lt.mpr hge, if_neg, if_false]
    cases fetch2 <;> simp [fetch_and_update]

/-- C6 witness: storing 7 under "k" at time 0 into an empty cache, a read at
time 1 (fresh) returns the stored pair without fetching, and a read at time 20
(expired, TTL 15) invokes the fetch function. -/
theorem cache_roundtrip_ttl_witness :
    (get_cached_data
        (get_cached_data ([] : List (String × ℚ × ℕ)) "k" 0 (some 7)).cache "k" 1 none)
      = ⟨some 7, some 0, false, false,
          (get_cached_data ([] : List (String × ℚ × ℕ)) "k" 0 (some 7)).cache⟩ ∧
    (get_cached_data
        (get_cached_data ([] : List (String × ℚ × ℕ)) "k" 0 (some 7)).cache "k" 20 none).fetched
      = true :=
  ⟨(cache_roundtrip_ttl [] "k" 7 0 1 none rfl).1 (by norm_num [CACHE_EXPIRY_DAYS]),
   ((cache_roundtrip_ttl [] "k" 7 0 20 none rfl).2 (by norm_num [CACHE_EXPIRY_DAYS])).1⟩

/-- C10: Cache unchanged on failed fetch — when there is no fresh entry for the
key (miss or expired) and the fetch function returns `None`, `get_cached_data`
returns `(None, None)`, does not call `save_cache`, and leaves the persisted
cache contents exactly as they were. -/
theorem cache_unchanged_on_failed_fetch {V : Type}
    (cache : List (String × ℚ × V)) (key : String) (now : ℚ)
    (hmiss : cache_hit_fresh cache key now = false) :
    get_cached_data cache key now none = ⟨none, none, true, false, cache⟩ := by
  unfold get_cached_data
  unfold cache_hit_fresh at hmiss
  cases h : cache_lookup cache key with
  | none => rfl
  | some tsv =>
    obtain ⟨ts, w⟩ := tsv
    rw [h] at hmiss
    simp only [decide_eq_false_iff_not] at hmiss
    dsimp only
    rw [if_neg hmiss]
    rfl

/-- C4: Section extractor at position 0 — on a filing whose legal-proceedings
header matches at position 0, `extract_10k_section` returns the empty string
even though a header pattern matched (the `if not section_start:` truthiness
slip), while the same filing shifted right by one space returns the section
from the header onward as the contract describes. -/
theorem extract_section_position_zero :
    re_search (item_pattern "3" legal_proceedings_tail) (lowerL c4_filing) = some 0 ∧
    extract_10k_section c4_filing "legal" = [] ∧
    extract_10k_section (' ' :: c4_filing) "legal" = c4_filing := by
  decide

/-- C7: Gauntlet Score aggregation exclusion — in the penalties segment a
"Gauntlet Score" entry contributes nothing to the subtotal, any other
non-None entry contributes its value, and the spec's example result
contributes exactly −6 to the ticker's total. -/
theorem gauntlet_score_excluded :
    (∀ (scores : List (String × Option ℚ)) (g : Option ℚ),
      section_total "penalties" (("Gauntlet Score", g) :: scores)
        = section_total "penalties" scores) ∧
    (∀ (scores : List (String × Option ℚ)) (k : String) (v : ℚ),
      k ≠ "Gauntlet Score" →
      section_total "penalties" ((k, some v) :: scores)
        = v + section_total "penalties" scores) ∧
    calculate_total_score
      [("penalties", some [("Customer Concentration", some (-3)),
                           ("Antitrust Concerns", some (-3)),
                           ("Gauntlet Score", some (-6))])] = -6 := by
  refine ⟨fun scores g => ?_, fun scores k v hk => ?_, ?_⟩
  · simp [section_total, visible_scores]
  · simp [section_total, visible_scores, List.filter_cons, bne_iff_ne, hk]
  · norm_num [calculate_total_score, section_total, visible_scores, List.filter_cons,
      (by decide : ("Customer Concentration" : String) ≠ "Gauntlet Score"),
      (by decide : ("Antitrust Concerns" : String) ≠ "Gauntlet Score"),
      List.filterMap_cons, List.sum_cons, List.sum_nil]

/-- C7 witness: a non-"Gauntlet Score" metric entry adds its value to the
penalties subtotal. -/
theorem gauntlet_score_excluded_witness :
    section_total "penalties" [("Antitrust Concerns", some (-3 : ℚ))]
      = -3 + section_total "penalties" [] :=
  gauntlet_score_excluded.2.1 [] "Antitrust Concerns" (-3) (by decide)

/-- When every document URL answers non-200, the final document fetch
(primary URL and `R1.htm` retry) yields nothing. -/
lemma fetch_document_all_non200 (w : SecWorld)
    (h : ∀ url, w.doc_status url ≠ 200) (cik_int : ℕ)
    (acc pd fd ft : String) :
    fetch_document w cik_int acc pd fd ft = none := by
  unfold fetch_document
  rw [if_pos (h _), if_pos (h _)]

/-- When every document URL answers non-200, the whole recent-filings
processing yields nothing. -/
lemma fetch_from_recent_all_non200 (w : SecWorld)
    (h : ∀ url, w.doc_status url ≠ 200) (cik_int : ℕ) (rf : RecentFilings) :
    fetch_from_recent w cik_int rf = none := by
  unfold fetch_from_recent
  cases hsel : select_form rf.form with
  | none => rfl
  | some p =>
    obtain ⟨i, ft⟩ := p
    dsimp only
    cases rf.accessionNumber.get? i <;> cases rf.filingDate.get? i <;>
      cases rf.primaryDocument.get? i <;>
      first
        | rfl
        | exact fetch_document_all_non200 w h _ _ _ _ _

/-- C8: Filing-fetch failure degrades to None — a non-200 CIK lookup, a missing
ticker, a non-200 submissions fetch, a missing recent-filings feed, the absence
of any 10-K/20-F entry, or non-200 document fetches (primary URL and retry
alike) each make `fetch_10k_filing` return `None`. -/
theorem fetch_failure_degrades_none (w : SecWorld) (ticker : String)
    (h : w.cik_status ≠ 200
       ∨ w.companies.find? (fun c => c.ticker.toUpper == ticker.toUpper) = none
       ∨ w.submissions_status ≠ 200
       ∨ w.submissions.recent = none
       ∨ (∃ rf, w.submissions.recent = some rf
            ∧ rf.form.findIdx? (fun f => f == "10-K") = none
            ∧ rf.form.findIdx? (fun f => f == "20-F") = none)
       ∨ (∀ url, w.doc_status url ≠ 200)) :
    fetch_10k_filing w ticker = none := by
  rcases h with h | h | h | h | ⟨rf, hrf, h10, h20⟩ | h
  · simp [fetch_10k_filing, h]
  · simp [fetch_10k_filing, h]
  · cases hfind : w.companies.find? (fun c => c.ticker.toUpper == ticker.toUpper) with
    | none => simp [fetch_10k_filing, hfind]
    | some info => simp [fetch_10k_filing, hfind, h]
  · cases hfind : w.companies.find? (fun c => c.ticker.toUpper == ticker.toUpper) with
    | none => simp [fetch_10k_filing, hfind]
    | some info => simp [fetch_10k_filing, hfind, h]
  · have hsel : select_form rf.form = none := by
      unfold select_form
      rw [h10, h20]
    cases hfind : w.companies.find? (fun c => c.ticker.toUpper == ticker.toUpper) with
    | none => simp [fetch_10k_filing, hfind]
    | some info => simp [fetch_10k_filing, fetch_from_recent, hfind, hrf, hsel]
  · cases hfind : w.companies.find? (fun c => c.ticker.toUpper == ticker.toUpper) with
    | none => simp [fetch_10k_filing, hfind]
    | some info =>
      cases hrec : w.submissions.recent with
      | none => simp [fetch_10k_filing, hfind, hrec]
      | some rf =>
        simp [fetch_10k_filing, hfind, hrec, fetch_from_recent_all_non200 w h]

/-- C8 witness: a world whose CIK lookup answers 404 yields no filing. -/
theorem fetch_failure_degrades_none_witness :
    fetch_10k_filing ⟨404, [], 0, ⟨none⟩, fun _ => 0, fun _ => ""⟩ "AAPL" = none :=
  fetch_failure_degrades_none _ "AAPL" (Or.inl (by decide))

/-- C9: Pricing power boundedness — for every gross-margin series and every TTM
margin value, `calculate_pricing_power` returns a score in [0, 5], and any
degenerate series (empty or single-year, hence insufficient for trend
analysis) yields 0. -/
theorem pricing_power_bounded :
    (∀ (md : List (ℤ × ℚ)) (ttm : Option ℚ),
      0 ≤ calculate_pricing_power md ttm ∧ calculate_pricing_power md ttm ≤ 5) ∧
    (∀ (md : List (ℤ × ℚ)) (ttm : Option ℚ),
      md.length < 2 → calculate_pricing_power md ttm = 0) := by
  have hnone : ∀ (md : List (ℤ × ℚ)), md.length < 2 → analyze_margin_trends md = none := by
    intro md hlen
    unfold analyze_margin_trends
    rw [if_pos hlen]
  constructor
  · intro md ttm
    by_cases he : md.isEmpty = true
    · simp [calculate_pricing_power, he]
    · cases h : analyze_margin_trends md with
      | none => simp [calculate_pricing_power, he, h]
      | some ta =>
        simp only [calculate_pricing_power, he, if_false, h]
        exact ⟨le_max_left 0 _, max_le (by norm_num) (min_le_right _ 5)⟩
  · intro md ttm hlen
    by_cases he : md.isEmpty = true
    · simp [calculate_pricing_power, he]
    · simp [calculate_pricing_power, he, hnone md hlen]

/-- C9 witness: the empty margin series scores 0, which is within [0, 5]. -/
theorem pricing_power_bounded_witness :
    calculate_pricing_power [] none = 0 ∧
    0 ≤ calculate_pricing_power [] none ∧ calculate_pricing_power [] none ≤ 5 :=
  ⟨pricing_power_bounded.2 [] none (by decide),
   (pricing_power_bounded.1 [] none).1, (pricing_power_bounded.1 [] none).2⟩

/-- C10 witness: a cache holding an entry for "k" stored at time 0, read at
time 15 (exactly the TTL, so expired) with a failed fetch: the result is
`(None, None)` and the expired entry is still stored untouched. -/
theorem cache_unchanged_on_failed_fetch_witness :
    get_cached_data [("k", (0 : ℚ), (42 : ℕ))] "k" 15 none
      = ⟨none, none, true, false, [("k", 0, 42)]⟩ := by
  refine cache_unchanged_on_failed_fetch _ _ _ ?_
  simp only [cache_hit_fresh, cache_lookup, List.find?]
  norm_num [CACHE_EXPIRY_DAYS]

end Investing
